import Mathlib

/-!
# Verification of the HAL_SmartMove scheduling and assignment core

This file gives a shallow embedding, in Lean 4, of the scheduling and
request/assignment-lifecycle logic of the HAL_SmartMove backend:

* `backend/automated_scheduling_service.py` (class `AutomatedScheduler`), and
* the approval / cancellation / trip-lifecycle route handlers in
  `backend/app/routes/admin.py`, `backend/app/routes/transport.py` and
  `backend/app/routes/transport_requests.py`.

Modelling conventions:

* A Python `datetime` is an `Int`: minutes since an epoch whose day 0 is a
  Monday (so `weekday = (t / 1440) % 7` matches Python's `date.weekday()`,
  Monday = 0).  A Python `time` (time of day) is an `Int` in `[0, 1440)`,
  minutes after midnight; `time` comparisons in Python are lexicographic on
  (hour, minute), i.e. exactly comparison of minutes after midnight.
  A Python `date` is an `Int` day index.  Division uses `Int.ediv`/`Int.emod`,
  which agree with Python's `//` and `%` for the positive divisors used here.
* Python float scores are modelled as exact rationals (`Rat`); the claims
  settled below do not depend on binary rounding of the float weights.
* `random.randint` inside `_estimate_trip_duration` is modelled as an oracle
  argument threaded into each call site, so the control flow is untouched.
* SQLAlchemy queries are lookups over in-memory lists; `.first()` is
  `List.find?` (insertion order), and SQL three-valued logic on a NULL
  `estimated_arrival` column makes any comparison against it not-true.
-/

/-! ## Time arithmetic (`datetime` as minutes since a Monday epoch) -/

/-- Time of day in minutes, `t % 1440` (Python `.time()`). -/
def timeOfDay (t : Int) : Int := t.emod 1440

/-- Hour of day, `(t % 1440) / 60` (Python `.hour`). -/
def hourOfDay (t : Int) : Int := (timeOfDay t).ediv 60

/-- Day index, `t / 1440` (Python `.date()`). -/
def dayOf (t : Int) : Int := t.ediv 1440

/-- Weekday with Monday = 0 (Python `date.weekday()`); epoch day 0 is a Monday. -/
def weekdayOf (t : Int) : Int := (dayOf t).emod 7

/-- `datetime.combine(date, time)`. -/
def combineDT (d : Int) (m : Int) : Int := 1440 * d + m

/-! ## `AutomatedScheduler` data model (`automated_scheduling_service.py`) -/

/-- `Priority` enum (`LOW = 1 .. URGENT = 4`). -/
inductive Priority where
  | low | medium | high | urgent
deriving DecidableEq, Repr

/-- `Priority.value`. -/
def Priority.value : Priority → Int
  | .low => 1
  | .medium => 2
  | .high => 3
  | .urgent => 4

/-- `SchedulingStatus` enum. -/
inductive SchedulingStatus where
  | scheduled | conflict | pending | optimized
deriving DecidableEq, Repr

/-- `SchedulingRequest` dataclass (presentation-only string fields
`user_id`, `origin`, `destination` and the unused recurrence fields are
omitted; none of them is read by the scheduling logic). -/
structure SchedulingRequest where
  id : Int
  requested_date : Int
  requested_time : Int
  passenger_count : Int
  priority : Priority
  flexibility_minutes : Int := 30
deriving DecidableEq, Repr

/-- Slot `type` tag strings `'requested'` / `'alternative'`. -/
inductive SlotType where
  | requested | alternative
deriving DecidableEq, Repr

/-- Factor strings produced by `_get_slot_factors` / the primary slot. -/
inductive Factor where
  | user_preference | peak_hour | efficient_time | weekend
deriving DecidableEq, Repr

/-- A slot dict `{'slot_time', 'score', 'type', 'factors'}`. -/
structure TimeSlot where
  slot_time : Int
  score : Int
  type : SlotType
  factors : List Factor
deriving DecidableEq, Repr

/-- `scheduling_rules['working_hours']` = 06:00 .. 22:00 (minutes). -/
def workingHoursStart : Int := 360
def workingHoursEnd : Int := 1320

/-- `scheduling_rules['peak_hours']`: 08:00-10:00 and 17:00-20:00 (minutes). -/
def peakHours : List (Int × Int) := [(480, 600), (1020, 1200)]

/-- `scheduling_rules['buffer_time_minutes']`. -/
def bufferTimeMinutes : Int := 15

/-- `_is_within_working_hours` (argument is a time of day in minutes). -/
def isWithinWorkingHours (t : Int) : Bool :=
  workingHoursStart ≤ t && t ≤ workingHoursEnd

/-- `_is_peak_hour` (argument is a time of day in minutes). -/
def isPeakHour (t : Int) : Bool :=
  peakHours.any fun p => p.1 ≤ t && t ≤ p.2

/-- `_calculate_slot_score`: base 50, priority bonus, peak penalty,
mid-day efficiency bonus, weekend bonus, clamped by `min(100, max(0, _))`. -/
def calculateSlotScore (slot_time : Int) (req : SchedulingRequest) : Int :=
  let score := 50 + req.priority.value * 10
  let score := if isPeakHour (timeOfDay slot_time) then score - 20 else score
  let score := if 10 ≤ hourOfDay slot_time && hourOfDay slot_time ≤ 16 then score + 15 else score
  let score := if 5 ≤ weekdayOf slot_time then score + 10 else score
  min 100 (max 0 score)

/-- `_get_slot_factors`. -/
def getSlotFactors (slot_time : Int) : List Factor :=
  (if isPeakHour (timeOfDay slot_time) then [Factor.peak_hour] else []) ++
  (if 10 ≤ hourOfDay slot_time && hourOfDay slot_time ≤ 16 then [Factor.efficient_time] else []) ++
  (if 5 ≤ weekdayOf slot_time then [Factor.weekend] else [])

/-- Stable insertion of a slot into a list sorted by descending score: the new
slot goes before the first element whose score it reaches.  Together with
`sortSlotsByScoreDesc` this computes exactly Python's stable
`sorted(slots, key=lambda s: s['score'], reverse=True)` (a stable sort's
output is determined by the key and the input order). -/
def insertSlotDesc (s : TimeSlot) : List TimeSlot → List TimeSlot
  | [] => [s]
  | t :: ts => if t.score ≤ s.score then s :: t :: ts else t :: insertSlotDesc s ts

/-- Stable sort by descending `score` (see `insertSlotDesc`). -/
def sortSlotsByScoreDesc : List TimeSlot → List TimeSlot
  | [] => []
  | s :: ss => insertSlotDesc s (sortSlotsByScoreDesc ss)

/-- The fixed offset list `[-30, -15, 15, 30, 45, 60]` of
`_find_optimal_time_slots`. -/
def slotOffsets : List Int := [-30, -15, 15, 30, 45, 60]

/-- `_find_optimal_time_slots`: the requested time (score literal 100, tagged
`requested`, no working-hours filter) followed by in-window alternatives,
then stably sorted by descending score. -/
def findOptimalTimeSlots (req : SchedulingRequest) : List TimeSlot :=
  let base := combineDT req.requested_date req.requested_time
  let primary : TimeSlot := ⟨base, 100, .requested, [.user_preference]⟩
  let alts := slotOffsets.filterMap fun offset =>
    if |offset| ≤ req.flexibility_minutes then
      let alt := base + offset
      if isWithinWorkingHours (timeOfDay alt) then
        some ⟨alt, calculateSlotScore alt req, .alternative, getSlotFactors alt⟩
      else none
    else none
  sortSlotsByScoreDesc (primary :: alts)

/-! ## Scheduler resource model and availability -/

/-- A vehicle dict as consumed by the scheduler (`.get` with a missing key is
`none`; the defaults used by the code are applied at the call sites, matching
`dict.get(key, default)`). -/
structure VehicleInfo where
  id : Int
  status : Option String := none
  capacity : Option Int := none
  fuel_type : Option String := none
  condition_score : Option Int := none
deriving DecidableEq, Repr

/-- A driver dict as consumed by the scheduler. -/
structure DriverInfo where
  id : Int
  status : Option String := none
  rating : Option Rat := none
  total_trips : Option Int := none
deriving DecidableEq, Repr

/-- `ScheduledTrip` dataclass.  `confidence_score` (a Python float) is an
exact rational; `alternative_slots` keeps each dict's slot as a `TimeSlot`
(the code stores its `strftime('%H:%M')` rendering of the same time). -/
structure SchedTrip where
  request_id : Int
  scheduled_date : Int
  scheduled_time : Int
  estimated_duration : Int
  assigned_vehicle_id : Option Int := none
  assigned_driver_id : Option Int := none
  status : SchedulingStatus := .pending
  confidence_score : Rat := 0
  alternative_slots : Option (List TimeSlot) := none
deriving DecidableEq, Repr

/-- Start `datetime` of a scheduled trip,
`datetime.combine(trip.scheduled_date, trip.scheduled_time)`. -/
def tripStart (trip : SchedTrip) : Int :=
  combineDT trip.scheduled_date trip.scheduled_time

/-- `_is_vehicle_available`: the loop over `self.scheduled_trips` returns
`False` as soon as a trip assigned to this vehicle has
`trip_start <= slot_time <= trip_start + duration + buffer` (closed bounds);
otherwise the result is `vehicle.get('status') == 'available'`. -/
def isVehicleAvailable (trips : List SchedTrip) (v : VehicleInfo) (slot_time : Int) : Bool :=
  match trips with
  | [] => v.status == some "available"
  | trip :: rest =>
    if trip.assigned_vehicle_id == some v.id then
      if tripStart trip ≤ slot_time && slot_time ≤ tripStart trip + trip.estimated_duration + bufferTimeMinutes
      then false
      else isVehicleAvailable rest v slot_time
    else isVehicleAvailable rest v slot_time

/-- `_is_driver_available` (same shape as `_is_vehicle_available`). -/
def isDriverAvailable (trips : List SchedTrip) (d : DriverInfo) (slot_time : Int) : Bool :=
  match trips with
  | [] => d.status == some "available"
  | trip :: rest =>
    if trip.assigned_driver_id == some d.id then
      if tripStart trip ≤ slot_time && slot_time ≤ tripStart trip + trip.estimated_duration + bufferTimeMinutes
      then false
      else isDriverAvailable rest d slot_time
    else isDriverAvailable rest d slot_time

/-- One value of the `availability` dict of `_check_resource_availability`. -/
structure Avail where
  vehicles : List VehicleInfo
  drivers : List DriverInfo
  resource_score : Int
deriving DecidableEq, Repr

/-- `_check_resource_availability`: one entry per slot, keyed by the slot's
datetime (the code keys by `isoformat()`, injective in the datetime).  The
slot times produced by `_find_optimal_time_slots` are pairwise distinct, so
assoc-list lookup agrees with the Python dict. -/
def checkResourceAvailability (trips : List SchedTrip) (slots : List TimeSlot)
    (vehicles : List VehicleInfo) (drivers : List DriverInfo) : List (Int × Avail) :=
  slots.map fun slot =>
    let av := vehicles.filter (fun v => isVehicleAvailable trips v slot.slot_time)
    let ad := drivers.filter (fun d => isDriverAvailable trips d slot.slot_time)
    (slot.slot_time, ⟨av, ad, av.length * ad.length⟩)

/-- `optimization_weights` (floats modelled as exact rationals). -/
def wUserPreference : Rat := 2/10
def wResourceUtilization : Rat := 15/100
def wPriority : Rat := 3/10

/-- `_estimate_trip_duration`: `random.randint(20, 90)` is the oracle
`randBase`; 10 minutes are added for more than two passengers. -/
def estimateTripDuration (randBase : Int) (req : SchedulingRequest) : Int :=
  if req.passenger_count > 2 then randBase + 10 else randBase

/-- Vehicle score inside `_select_best_vehicle`. -/
def vehicleScore (req : SchedulingRequest) (v : VehicleInfo) : Int :=
  (if v.capacity.getD 4 ≥ req.passenger_count then 30 else 0) +
  (if v.fuel_type == some "electric" then 20
   else if v.fuel_type == some "hybrid" then 15 else 0) +
  v.condition_score.getD 80

/-- `_select_best_vehicle`: Python `max(..., key=...)` keeps the first
maximal element; `none` only on the (unreachable) empty list. -/
def selectBestVehicle (vehicles : List VehicleInfo) (req : SchedulingRequest) : Option VehicleInfo :=
  match vehicles with
  | [] => none
  | v :: vs => some (vs.foldl (fun best x =>
      if vehicleScore req x > vehicleScore req best then x else best) v)

/-- Driver score inside `_select_best_driver`
(`rating*20 + min(total_trips/10, 20) + 10`, true division). -/
def driverScore (d : DriverInfo) : Rat :=
  (d.rating.getD 3) * 20 + min ((d.total_trips.getD 0 : Int) / (10 : Rat)) 20 + 10

/-- `_select_best_driver`. -/
def selectBestDriver (drivers : List DriverInfo) : Option DriverInfo :=
  match drivers with
  | [] => none
  | d :: ds => some (ds.foldl (fun best x =>
      if driverScore x > driverScore best then x else best) d)

/-- `_generate_alternative_slots`: the top three slots other than the
selected one. -/
def generateAlternativeSlots (all_slots : List TimeSlot) (selected : TimeSlot) : List TimeSlot :=
  (all_slots.take 3).filter (fun s => s ≠ selected)

/-- One iteration of the best-slot loop of `_apply_scheduling_algorithm`:
skip slots missing from the availability dict or with an empty vehicle or
driver pool, otherwise keep the strictly best combined score
(`best_score` starts at 0). -/
def schedStep (req : SchedulingRequest) (ra : List (Int × Avail))
    (acc : Option (TimeSlot × Avail) × Rat) (slot : TimeSlot) :
    Option (TimeSlot × Avail) × Rat :=
  match ra.lookup slot.slot_time with
  | none => acc
  | some av =>
    if av.vehicles ≠ [] ∧ av.drivers ≠ [] then
      let combined : Rat := (slot.score : Rat) * wUserPreference +
        (av.resource_score : Rat) * wResourceUtilization +
        (req.priority.value : Rat) * 20 * wPriority
      if combined > acc.2 then (some (slot, av), combined) else acc
    else acc

/-- The `ScheduledTrip` built in the no-feasible-slot branch of
`_apply_scheduling_algorithm`: the requested date and time, status
`CONFLICT`, confidence 0. -/
def conflictTrip (req : SchedulingRequest) (randBase : Int) : SchedTrip :=
  { request_id := req.id
    scheduled_date := req.requested_date
    scheduled_time := req.requested_time
    estimated_duration := estimateTripDuration randBase req
    status := .conflict
    confidence_score := 0 }

/-- `_apply_scheduling_algorithm`. -/
def applySchedulingAlgorithm (req : SchedulingRequest) (randBase : Int)
    (time_slots : List TimeSlot) (ra : List (Int × Avail)) : SchedTrip :=
  let best := time_slots.foldl (schedStep req ra) (none, 0)
  match best.1 with
  | some (slot, av) =>
    { request_id := req.id
      scheduled_date := dayOf slot.slot_time
      scheduled_time := timeOfDay slot.slot_time
      estimated_duration := estimateTripDuration randBase req
      assigned_vehicle_id := (selectBestVehicle av.vehicles req).map (·.id)
      assigned_driver_id := (selectBestDriver av.drivers).map (·.id)
      status := .scheduled
      confidence_score := best.2 / 100
      alternative_slots := some (generateAlternativeSlots time_slots slot) }
  | none => conflictTrip req randBase

/-- `_resolve_scheduling_conflicts`: rebuild the request with
`flexibility_minutes + 60`, run the slot search and scheduling algorithm once
more, and return either the re-scheduled trip retagged `optimized` or the
original conflicted trip. -/
def resolveSchedulingConflicts (trips : List SchedTrip) (req : SchedulingRequest)
    (conflicted : SchedTrip) (vehicles : List VehicleInfo) (drivers : List DriverInfo)
    (randBase : Int) : SchedTrip :=
  let extended := { req with flexibility_minutes := req.flexibility_minutes + 60 }
  let extendedSlots := findOptimalTimeSlots extended
  let extendedAvailability := checkResourceAvailability trips extendedSlots vehicles drivers
  let resolved := applySchedulingAlgorithm extended randBase extendedSlots extendedAvailability
  if resolved.status = .scheduled then { resolved with status := .optimized } else conflicted

/-- The `{'success': True, 'scheduled_trip': ...}` payload of
`schedule_request` (the derived presentation fields `scheduling_details` and
`alternatives` are recomputed from `scheduled_trip` and omitted). -/
structure ScheduleResult where
  success : Bool
  scheduled_trip : SchedTrip
deriving DecidableEq, Repr

/-- `schedule_request`: slot search, availability, one scheduling pass, one
conflict-resolution pass when the first pass conflicts, and append the final
trip to `self.scheduled_trips`.  `rand1`/`rand2` are the duration oracles of
the two potential `_estimate_trip_duration` calls. -/
def scheduleRequest (trips : List SchedTrip) (req : SchedulingRequest)
    (vehicles : List VehicleInfo) (drivers : List DriverInfo) (rand1 rand2 : Int) :
    ScheduleResult × List SchedTrip :=
  let optimalSlots := findOptimalTimeSlots req
  let resourceAvailability := checkResourceAvailability trips optimalSlots vehicles drivers
  let scheduledTrip := applySchedulingAlgorithm req rand1 optimalSlots resourceAvailability
  let scheduledTrip :=
    if scheduledTrip.status = .conflict then
      resolveSchedulingConflicts trips req scheduledTrip vehicles drivers rand2
    else scheduledTrip
  (⟨true, scheduledTrip⟩, trips ++ [scheduledTrip])

/-! ## Persistent data model of the route handlers

The SQLAlchemy model classes live in `app/models` (not part of the sources
here); every field and enum member below is reconstructed from how the route
handlers in `app/routes` read and write them.  `RequestStatus` has exactly
the five members referenced by the routes and `AssignmentStatus` the four. -/

/-- `RequestStatus` enum (members as referenced by the routes). -/
inductive RequestStatus where
  | pending | approved | rejected | cancelled | completed
deriving DecidableEq, Repr

/-- `AssignmentStatus` enum (members as referenced by the routes). -/
inductive AssignmentStatus where
  | assigned | in_progress | completed | cancelled
deriving DecidableEq, Repr

/-- A `TransportRequest` row (fields read or written by the handlers;
`request_time` and the assignment times are times of day in minutes,
`request_date` a day index). -/
structure TransportRequest where
  id : Nat
  user_id : Nat
  status : RequestStatus
  request_date : Int
  request_time : Int
  approved_by : Option Nat := none
  approved_at : Option Int := none
  rejection_reason : Option String := none
deriving DecidableEq, Repr

/-- A `VehicleAssignment` row.  `estimated_arrival` is nullable: the bulk
approval path creates assignments without it.  The `status` column default is
`ASSIGNED` (the single-approval path relies on the column default; the bulk
path and the start-trip guard fix that default as `ASSIGNED`). -/
structure VehicleAssignment where
  id : Nat
  request_id : Nat
  vehicle_id : Nat
  driver_id : Nat
  assigned_by : Nat
  assignment_date : Int
  estimated_departure : Int
  estimated_arrival : Option Int := none
  status : AssignmentStatus := .assigned
  started_at : Option Int := none
  completed_at : Option Int := none
  notes : Option String := none
deriving DecidableEq, Repr

/-- A `Vehicle` row (fields the handlers read). -/
structure Vehicle where
  id : Nat
  is_active : Bool
deriving DecidableEq, Repr

/-- A `Driver` row (fields the handlers read). -/
structure Driver where
  id : Nat
  employee_id : Nat
  is_active : Bool
  is_available : Bool
deriving DecidableEq, Repr

/-- The database state touched by the embedded handlers. -/
structure DBState where
  requests : List TransportRequest
  assignments : List VehicleAssignment
  vehicles : List Vehicle
  drivers : List Driver
deriving DecidableEq, Repr

/-- The payload `RequestApproval` (`estimated_departure`/`estimated_arrival`
are times of day in minutes). -/
structure ApprovalData where
  vehicle_id : Nat
  driver_id : Nat
  estimated_departure : Int
  estimated_arrival : Int
deriving DecidableEq, Repr

/-- The `HTTPException`s the embedded handlers can raise. -/
inductive ApiErr where
  | requestNotFound
  | notPending
  | vehicleNotFound
  | driverNotFound
  | conflict
  | cannotCancel
  | driverProfileNotFound
  | assignmentNotFound
  | badAssignmentStatus
deriving DecidableEq, Repr

deriving instance DecidableEq for Except

/-- `db.query(TransportRequest).filter(id == rid).first()`. -/
def findRequest (s : DBState) (rid : Nat) : Option TransportRequest :=
  s.requests.find? (fun r => r.id == rid)

/-- The time-overlap filter of the conflict query in
`approve_request_with_assignment` (lines 357-367 of `admin.py`): the existing
assignment's closed interval contains the new departure or the new arrival.
`estimated_arrival` is a nullable column; under SQL three-valued logic a
comparison against NULL is not satisfied, so rows with no arrival never
match. -/
def timeOverlapClosed (exDep : Int) (exArr : Option Int) (newDep newArr : Int) : Bool :=
  (exDep ≤ newDep && (match exArr with | some a => newDep ≤ a | none => false)) ||
  (exDep ≤ newArr && (match exArr with | some a => newArr ≤ a | none => false))

/-- The full row filter of the conflict query in
`approve_request_with_assignment`: same vehicle or driver, the assignment's
request (inner join) has the same `request_date`, status in
{assigned, in_progress}, and `timeOverlapClosed`. -/
def assignmentConflictsWith (s : DBState) (reqDate : Int) (d : ApprovalData)
    (a : VehicleAssignment) : Bool :=
  (a.vehicle_id == d.vehicle_id || a.driver_id == d.driver_id) &&
  (match findRequest s a.request_id with
   | some r => r.request_date == reqDate
   | none => false) &&
  (a.status == .assigned || a.status == .in_progress) &&
  timeOverlapClosed a.estimated_departure a.estimated_arrival
    d.estimated_departure d.estimated_arrival

/-- The conflict query (`.first()`). -/
def conflictCheck (s : DBState) (reqDate : Int) (d : ApprovalData) : Option VehicleAssignment :=
  s.assignments.find? (assignmentConflictsWith s reqDate d)

/-- Fresh autoincrement primary key for a new assignment row. -/
def nextAssignmentId (s : DBState) : Nat :=
  (s.assignments.map (·.id)).foldr max 0 + 1

/-- Set a request's status (ORM mutation of the row with this primary key). -/
def setRequestStatus (l : List TransportRequest) (rid : Nat) (st : RequestStatus) :
    List TransportRequest :=
  l.map fun r => if r.id == rid then { r with status := st } else r

/-- Set a driver's `is_available` flag (row with this primary key, if any). -/
def setDriverAvailable (l : List Driver) (did : Nat) (b : Bool) : List Driver :=
  l.map fun dr => if dr.id == did then { dr with is_available := b } else dr

/-- `PUT /admin/requests/{id}/approve-with-assignment`
(`approve_request_with_assignment`, `admin.py` lines 300-439): guards in
source order (404 request, 400 non-pending, 404 inactive vehicle, 404
inactive/unavailable driver, 400 conflict), then the mutations (request
approved, assignment row added, driver marked unavailable).  Every raise
happens before any mutation; `db.commit` is implicit.  Returns the new
assignment id. -/
def approveWithAssignment (s : DBState) (rid : Nat) (d : ApprovalData)
    (adminId : Nat) (now : Int) : DBState × Except ApiErr Nat :=
  match findRequest s rid with
  | none => (s, .error .requestNotFound)
  | some req =>
    if req.status ≠ .pending then (s, .error .notPending)
    else match s.vehicles.find? (fun v => v.id == d.vehicle_id && v.is_active) with
    | none => (s, .error .vehicleNotFound)
    | some _ =>
      match s.drivers.find? (fun dr => dr.id == d.driver_id && dr.is_active && dr.is_available) with
      | none => (s, .error .driverNotFound)
      | some _ =>
        match conflictCheck s req.request_date d with
        | some _ => (s, .error .conflict)
        | none =>
          let newId := nextAssignmentId s
          let assignment : VehicleAssignment :=
            { id := newId, request_id := rid, vehicle_id := d.vehicle_id
              driver_id := d.driver_id, assigned_by := adminId
              assignment_date := req.request_date
              estimated_departure := d.estimated_departure
              estimated_arrival := some d.estimated_arrival }
          let approvedRequests := s.requests.map (fun r =>
            if r.id == rid then
              { r with status := RequestStatus.approved, approved_by := some adminId,
                       approved_at := some now }
            else r)
          let s := { s with requests := approvedRequests }
          let s := { s with drivers := setDriverAvailable s.drivers d.driver_id false }
          let s := { s with assignments := s.assignments ++ [assignment] }
          (s, .ok newId)

/-- `PUT /admin/requests/{id}/reject` (`reject_request_unified`,
`admin.py` lines 510-540): only pending requests may be rejected. -/
def rejectRequestUnified (s : DBState) (rid : Nat) (adminId : Nat) (now : Int) :
    DBState × Except ApiErr Unit :=
  match findRequest s rid with
  | none => (s, .error .requestNotFound)
  | some req =>
    if req.status ≠ .pending then (s, .error .notPending)
    else
      let rejectedRequests := s.requests.map (fun r =>
        if r.id == rid then
          { r with status := RequestStatus.rejected, approved_by := some adminId,
                   approved_at := some now,
                   rejection_reason := some "Rejected by admin" }
        else r)
      ({ s with requests := rejectedRequests }, .ok ())

/-- Mark the first assignment row with this `request_id` cancelled
(the handlers fetch it with `.first()` and mutate that one row). -/
def cancelFirstAssignmentFor (l : List VehicleAssignment) (rid : Nat) :
    List VehicleAssignment :=
  match l with
  | [] => []
  | a :: rest =>
    if a.request_id == rid then { a with status := AssignmentStatus.cancelled } :: rest
    else a :: cancelFirstAssignmentFor rest rid

/-- `PUT /admin/requests/{id}/cancel` (`cancel_request_unified`,
`admin.py` lines 543-578): refuses only completed or already-cancelled
requests; cancels the request, cancels its assignment if one exists, and —
if that assignment's driver row exists (`if assignment.driver:`) — restores
the driver's availability to `True`. -/
def adminCancelRequest (s : DBState) (rid : Nat) : DBState × Except ApiErr Unit :=
  match findRequest s rid with
  | none => (s, .error .requestNotFound)
  | some req =>
    if req.status == .completed || req.status == .cancelled then
      (s, .error .cannotCancel)
    else
      let s := { s with requests := setRequestStatus s.requests rid .cancelled }
      match s.assignments.find? (fun a => a.request_id == rid) with
      | none => (s, .ok ())
      | some a =>
        let s := { s with assignments := cancelFirstAssignmentFor s.assignments rid }
        match s.drivers.find? (fun dr => dr.id == a.driver_id) with
        | none => (s, .ok ())
        | some _ =>
          ({ s with drivers := setDriverAvailable s.drivers a.driver_id true }, .ok ())

/-- `DELETE /requests/{id}` (`cancel_request`, `transport_requests.py`
lines 225-265): the requester's own cancellation.  Same status guard as the
admin variant, cancels the request and its assignment — but performs no
driver-availability restore. -/
def userCancelRequest (s : DBState) (uid : Nat) (rid : Nat) : DBState × Except ApiErr Unit :=
  match s.requests.find? (fun r => r.id == rid && r.user_id == uid) with
  | none => (s, .error .requestNotFound)
  | some req =>
    if req.status == .completed || req.status == .cancelled then
      (s, .error .cannotCancel)
    else
      let s := { s with requests := setRequestStatus s.requests rid .cancelled }
      match s.assignments.find? (fun a => a.request_id == rid) with
      | none => (s, .ok ())
      | some _ =>
        ({ s with assignments := cancelFirstAssignmentFor s.assignments rid }, .ok ())

/-- `PUT /transport/trip/{assignment_id}/start` (`start_trip`,
`transport.py` lines 117-168): look up the caller's driver profile by
employee id, find the assignment bound to that driver, and move it from
`ASSIGNED` to `IN_PROGRESS`.  The request row is not touched. -/
def startTrip (s : DBState) (employeeId : Nat) (assignmentId : Nat) (now : Int) :
    DBState × Except ApiErr Unit :=
  match s.drivers.find? (fun dr => dr.employee_id == employeeId) with
  | none => (s, .error .driverProfileNotFound)
  | some driver =>
    match s.assignments.find? (fun a => a.id == assignmentId && a.driver_id == driver.id) with
    | none => (s, .error .assignmentNotFound)
    | some a =>
      if a.status ≠ .assigned then (s, .error .badAssignmentStatus)
      else
        let started := s.assignments.map (fun x =>
          if x.id == assignmentId then
            { x with status := AssignmentStatus.in_progress, started_at := some now }
          else x)
        ({ s with assignments := started }, .ok ())

/-- `PUT /transport/trip/{assignment_id}/complete` (`complete_trip`,
`transport.py` lines 171-230): move the assignment from `IN_PROGRESS` to
`COMPLETED`, mark the request completed (`if assignment.request:`) and
restore the driver's availability (`if assignment.driver:`). -/
def completeTrip (s : DBState) (employeeId : Nat) (assignmentId : Nat) (now : Int) :
    DBState × Except ApiErr Unit :=
  match s.drivers.find? (fun dr => dr.employee_id == employeeId) with
  | none => (s, .error .driverProfileNotFound)
  | some driver =>
    match s.assignments.find? (fun a => a.id == assignmentId && a.driver_id == driver.id) with
    | none => (s, .error .assignmentNotFound)
    | some a =>
      if a.status ≠ .in_progress then (s, .error .badAssignmentStatus)
      else
        let completed := s.assignments.map (fun x =>
          if x.id == assignmentId then
            { x with status := AssignmentStatus.completed, completed_at := some now }
          else x)
        let s := { s with assignments := completed }
        let s :=
          match findRequest s a.request_id with
          | some _ => { s with requests := setRequestStatus s.requests a.request_id .completed }
          | none => s
        let s :=
          match s.drivers.find? (fun dr => dr.id == a.driver_id) with
          | some _ => { s with drivers := setDriverAvailable s.drivers a.driver_id true }
          | none => s
        (s, .ok ())

/-! ## Lifecycle events over a canonical one-request state

To settle the lifecycle-table claims the five events are applied, through the
embedded handlers above, to a canonical database holding a single request
(id 1, user 5), one active vehicle (id 1) and one active driver (id 1,
employee id 1).  `approve` is `approve_request_with_assignment` (the variant
that creates the assignment), `reject` is `reject_request_unified`, `cancel`
is `cancel_request_unified`, `start`/`complete` are the transport routes. -/

/-- The five lifecycle events of the spec. -/
inductive Event where
  | approve | reject | cancel | start | complete
deriving DecidableEq, Repr

/-- The combined request/assignment lifecycle states.  The request row has no
`in_progress` status: a trip in progress is an `APPROVED` request whose
assignment is `IN_PROGRESS`. -/
inductive LState where
  | pending | approved | inProgress | completed | cancelled | rejected
deriving DecidableEq, Repr

/-- Canonical request row per lifecycle state. -/
def lcRequest (st : RequestStatus) : TransportRequest :=
  { id := 1, user_id := 5, status := st, request_date := 0, request_time := 540 }

/-- Canonical assignment row per lifecycle state. -/
def lcAssignment (st : AssignmentStatus) : VehicleAssignment :=
  { id := 1, request_id := 1, vehicle_id := 1, driver_id := 1, assigned_by := 0
    assignment_date := 0, estimated_departure := 540, estimated_arrival := some 600
    status := st }

/-- The canonical database realizing each lifecycle state.  The driver's
availability cache is `false` exactly while an assignment is active, matching
the side effects of the handlers. -/
def encState : LState → DBState
  | .pending =>
    ⟨[lcRequest .pending], [], [⟨1, true⟩], [⟨1, 1, true, true⟩]⟩
  | .approved =>
    ⟨[lcRequest .approved], [lcAssignment .assigned], [⟨1, true⟩], [⟨1, 1, true, false⟩]⟩
  | .inProgress =>
    ⟨[lcRequest .approved], [lcAssignment .in_progress], [⟨1, true⟩], [⟨1, 1, true, false⟩]⟩
  | .completed =>
    ⟨[lcRequest .completed], [lcAssignment .completed], [⟨1, true⟩], [⟨1, 1, true, true⟩]⟩
  | .cancelled =>
    ⟨[lcRequest .cancelled], [lcAssignment .cancelled], [⟨1, true⟩], [⟨1, 1, true, true⟩]⟩
  | .rejected =>
    ⟨[lcRequest .rejected], [], [⟨1, true⟩], [⟨1, 1, true, true⟩]⟩

/-- Observable statuses of the canonical request and its assignment. -/
def obsStatus (s : DBState) : Option RequestStatus × Option AssignmentStatus :=
  ((findRequest s 1).map (·.status),
   (s.assignments.find? (fun a => a.request_id == 1)).map (·.status))

/-- Apply one lifecycle event to a database via the embedded handlers,
returning the new database and whether the handler succeeded. -/
def applyEvent (s : DBState) : Event → DBState × Bool
  | .approve =>
    let r := approveWithAssignment s 1 ⟨1, 1, 540, 600⟩ 9 0
    (r.1, r.2.toBool)
  | .reject =>
    let r := rejectRequestUnified s 1 9 0
    (r.1, r.2.toBool)
  | .cancel =>
    let r := adminCancelRequest s 1
    (r.1, r.2.toBool)
  | .start =>
    let r := startTrip s 1 1 0
    (r.1, r.2.toBool)
  | .complete =>
    let r := completeTrip s 1 1 0
    (r.1, r.2.toBool)

/-! ## Spec-side properties

The definitions in this section transcribe the *specification's* wording (not
the code); the theorems below compare the code's embedded behaviour against
them. -/

/-- Modelled from the spec (§4.1): half-open interval overlap,
`a.start < b.end && b.start < a.end`. -/
def halfOpenOverlap (aStart aEnd bStart bEnd : Int) : Bool :=
  aStart < bEnd && bStart < aEnd

/-- Modelled from the spec (§3): two Assignments violate the no-overlap
invariant when both are non-terminal (assigned/in_progress), they share the
vehicle or the driver, and their (same-day) intervals overlap in the
half-open sense.  An assignment with no `estimated_arrival` has no interval
and cannot overlap. -/
def assignPairViolatesNoOverlap (a b : VehicleAssignment) : Bool :=
  (a.status == .assigned || a.status == .in_progress) &&
  (b.status == .assigned || b.status == .in_progress) &&
  (a.vehicle_id == b.vehicle_id || a.driver_id == b.driver_id) &&
  (a.assignment_date == b.assignment_date) &&
  (match a.estimated_arrival, b.estimated_arrival with
   | some aArr, some bArr =>
     halfOpenOverlap a.estimated_departure aArr b.estimated_departure bArr
   | _, _ => false)

/-- No pair drawn from the list violates the no-overlap invariant. -/
def noOverlapPairsOK : List VehicleAssignment → Bool
  | [] => true
  | a :: rest => rest.all (fun b => !(assignPairViolatesNoOverlap a b)) && noOverlapPairsOK rest

/-- Modelled from the spec (§3): the central no-overlap invariant over a
database state. -/
def noOverlapInvariant (s : DBState) : Bool := noOverlapPairsOK s.assignments

/-- Modelled from the spec (§4.2): the raw additive slot-score formula —
base 50, plus `priority_weight * priority_rank`, minus 20 in a peak window,
plus 15 in the midday band, plus 10 on a weekend (no clamping). -/
def slotScoreFormula (slot_time : Int) (req : SchedulingRequest) : Int :=
  50 + req.priority.value * 10 -
  (if isPeakHour (timeOfDay slot_time) then 20 else 0) +
  (if 10 ≤ hourOfDay slot_time && hourOfDay slot_time ≤ 16 then 15 else 0) +
  (if 5 ≤ weekdayOf slot_time then 10 else 0)

/-- The lifecycle transition table actually implemented by the handlers
(contrast with the spec's table, §4.6): `cancel` is accepted from every
state except `completed` and `cancelled` — including `pending`, `rejected`
and an in-progress trip — and `start` moves only the assignment to
`IN_PROGRESS`, leaving the request `APPROVED`.  `none` means the handler
fails (and, by the no-mutation theorem, changes nothing). -/
def lifecycleTableAmended : LState → Event →
    Option (Option RequestStatus × Option AssignmentStatus)
  | .pending, .approve => some (some .approved, some .assigned)
  | .pending, .reject => some (some .rejected, none)
  | .pending, .cancel => some (some .cancelled, none)
  | .approved, .cancel => some (some .cancelled, some .cancelled)
  | .approved, .start => some (some .approved, some .in_progress)
  | .inProgress, .cancel => some (some .cancelled, some .cancelled)
  | .inProgress, .complete => some (some .completed, some .completed)
  | .rejected, .cancel => some (some .cancelled, none)
  | _, _ => none

/-! ## Concrete fixtures used by witnesses and counterexamples -/

/-- A plain request: Monday (day 0) 09:00, flexibility 30, medium priority. -/
def req0 : SchedulingRequest := ⟨1, 0, 540, 1, .medium, 30⟩

/-- An urgent request whose slots fall on a Saturday. -/
def reqUrgent : SchedulingRequest := ⟨2, 5, 720, 1, .urgent, 30⟩

/-- Two pending same-day requests, one vehicle, two available drivers. -/
def reqRow1 : TransportRequest := ⟨1, 5, .pending, 0, 540, none, none, none⟩
def reqRow2 : TransportRequest := ⟨2, 6, .pending, 0, 480, none, none, none⟩
def dbC1 : DBState :=
  ⟨[reqRow1, reqRow2], [], [⟨1, true⟩], [⟨1, 1, true, true⟩, ⟨2, 2, true, true⟩]⟩

/-- Approve request 1: vehicle 1, driver 1, 09:00-15:00. -/
def apprData1 : ApprovalData := ⟨1, 1, 540, 900⟩

/-- Approve request 2: vehicle 1, driver 2, 08:00-16:00 — an interval that
strictly contains the first one. -/
def apprData2 : ApprovalData := ⟨1, 2, 480, 960⟩

/-- The state after the first approval. -/
def dbC1' : DBState := (approveWithAssignment dbC1 1 apprData1 9 0).1

/-- The assignment row created by the first approval. -/
def asg1 : VehicleAssignment :=
  ⟨1, 1, 1, 1, 9, 0, 540, some 900, .assigned, none, none, none⟩

/-- An active assignment row and its (unavailable) driver row. -/
def asgS9 : VehicleAssignment := ⟨1, 1, 1, 1, 9, 0, 540, some 600, .assigned, none, none, none⟩
def drS9 : Driver := ⟨1, 1, true, false⟩

/-- One approved request (user 7) with an active assignment whose driver is
marked unavailable — the state in which a cancellation arrives. -/
def s9 : DBState :=
  ⟨[⟨1, 7, .approved, 0, 540, none, none, none⟩], [asgS9], [⟨1, true⟩], [drS9]⟩

/-! ## Error paths never mutate state

In every embedded handler each `HTTPException` is raised before any ORM
mutation, so the returned state on an error is the input state.  These
lemmas make that explicit, one per handler. -/

lemma approveWithAssignment_error_eq (s : DBState) (rid : Nat) (d : ApprovalData)
    (adminId : Nat) (now : Int) (s' : DBState) (e : ApiErr)
    (h : approveWithAssignment s rid d adminId now = (s', .error e)) : s' = s := by
  unfold approveWithAssignment at h
  repeat' split at h
  all_goals simp_all

lemma rejectRequestUnified_error_eq (s : DBState) (rid adminId : Nat) (now : Int)
    (s' : DBState) (e : ApiErr)
    (h : rejectRequestUnified s rid adminId now = (s', .error e)) : s' = s := by
  unfold rejectRequestUnified at h
  repeat' split at h
  all_goals simp_all

lemma adminCancelRequest_error_eq (s : DBState) (rid : Nat)
    (s' : DBState) (e : ApiErr)
    (h : adminCancelRequest s rid = (s', .error e)) : s' = s := by
  unfold adminCancelRequest at h
  rcases hf : findRequest s rid with _ | req
  · rw [hf] at h; simp_all
  · rw [hf] at h
    simp only [] at h
    split at h
    · simp_all
    · rcases ha : List.find? (fun a => a.request_id == rid) s.assignments with _ | a
      · rw [ha] at h; simp_all
      · rw [ha] at h
        dsimp only at h
        rcases hd : List.find? (fun dr => dr.id == a.driver_id) s.drivers with _ | dr
        · rw [hd] at h; simp_all
        · rw [hd] at h; simp_all

lemma userCancelRequest_error_eq (s : DBState) (uid rid : Nat)
    (s' : DBState) (e : ApiErr)
    (h : userCancelRequest s uid rid = (s', .error e)) : s' = s := by
  unfold userCancelRequest at h
  rcases hf : List.find? (fun r => r.id == rid && r.user_id == uid) s.requests with _ | req
  · rw [hf] at h; simp_all
  · rw [hf] at h
    simp only [] at h
    split at h
    · simp_all
    · rcases ha : List.find? (fun a => a.request_id == rid) s.assignments with _ | a
      · rw [ha] at h; simp_all
      · rw [ha] at h; simp_all

lemma startTrip_error_eq (s : DBState) (eid aid : Nat) (now : Int)
    (s' : DBState) (e : ApiErr)
    (h : startTrip s eid aid now = (s', .error e)) : s' = s := by
  unfold startTrip at h
  repeat' split at h
  all_goals simp_all

lemma completeTrip_error_eq (s : DBState) (eid aid : Nat) (now : Int)
    (s' : DBState) (e : ApiErr)
    (h : completeTrip s eid aid now = (s', .error e)) : s' = s := by
  unfold completeTrip at h
  repeat' split at h
  all_goals simp_all

/-- C4 — Invalid-transition atomicity: whenever any of the embedded
lifecycle handlers (approve-with-assignment, reject, admin cancel, the
requester's own cancel, start trip, complete trip) fails — in particular on
any transition attempted from a state that does not permit it — it returns
the database unchanged: no request status, assignment or driver flag is
mutated. -/
theorem invalid_transition_no_mutation :
  ∀ (s : DBState) (rid uid eid aid adminId : Nat) (d : ApprovalData) (now : Int),
    ((approveWithAssignment s rid d adminId now).2.toBool = false →
      (approveWithAssignment s rid d adminId now).1 = s) ∧
    ((rejectRequestUnified s rid adminId now).2.toBool = false →
      (rejectRequestUnified s rid adminId now).1 = s) ∧
    ((adminCancelRequest s rid).2.toBool = false →
      (adminCancelRequest s rid).1 = s) ∧
    ((userCancelRequest s uid rid).2.toBool = false →
      (userCancelRequest s uid rid).1 = s) ∧
    ((startTrip s eid aid now).2.toBool = false →
      (startTrip s eid aid now).1 = s) ∧
    ((completeTrip s eid aid now).2.toBool = false →
      (completeTrip s eid aid now).1 = s) := by
  intro s rid uid eid aid adminId d now
  refine ⟨?_, ?_, ?_, ?_, ?_, ?_⟩ <;> intro h
  · rcases hE : approveWithAssignment s rid d adminId now with ⟨s', r⟩
    cases r with
    | ok v => rw [hE] at h; simp [Except.toBool] at h
    | error e => exact approveWithAssignment_error_eq s rid d adminId now s' e hE
  · rcases hE : rejectRequestUnified s rid adminId now with ⟨s', r⟩
    cases r with
    | ok v => rw [hE] at h; simp [Except.toBool] at h
    | error e => exact rejectRequestUnified_error_eq s rid adminId now s' e hE
  · rcases hE : adminCancelRequest s rid with ⟨s', r⟩
    cases r with
    | ok v => rw [hE] at h; simp [Except.toBool] at h
    | error e => exact adminCancelRequest_error_eq s rid s' e hE
  · rcases hE : userCancelRequest s uid rid with ⟨s', r⟩
    cases r with
    | ok v => rw [hE] at h; simp [Except.toBool] at h
    | error e => exact userCancelRequest_error_eq s uid rid s' e hE
  · rcases hE : startTrip s eid aid now with ⟨s', r⟩
    cases r with
    | ok v => rw [hE] at h; simp [Except.toBool] at h
    | error e => exact startTrip_error_eq s eid aid now s' e hE
  · rcases hE : completeTrip s eid aid now with ⟨s', r⟩
    cases r with
    | ok v => rw [hE] at h; simp [Except.toBool] at h
    | error e => exact completeTrip_error_eq s eid aid now s' e hE

/-- Witness for C4: approving a rejected request and starting a trip with no
assignment both fail and leave the canonical states untouched. -/
theorem invalid_transition_no_mutation_witness :
  (approveWithAssignment (encState .rejected) 1 ⟨1, 1, 540, 600⟩ 9 0).1 = encState .rejected ∧
  (startTrip (encState .pending) 1 1 0).1 = encState .pending :=
  ⟨(invalid_transition_no_mutation (encState .rejected) 1 0 0 0 9 ⟨1, 1, 540, 600⟩ 0).1
      (by decide),
   (invalid_transition_no_mutation (encState .pending) 0 0 1 1 0 ⟨1, 1, 540, 600⟩ 0).2.2.2.2.1
      (by decide)⟩

/-- C3 (amended) — the lifecycle transition table the handlers implement:
`approve`/`reject` only from `pending`; `start` moves the assignment (not
the request) to `in_progress`; `complete` only from an in-progress trip;
`cancel` is accepted from every state except `completed`/`cancelled`,
including `pending`, `rejected`, and in-progress trips; every other
(state, event) pair fails.  `completed` and `cancelled` are terminal, but
`rejected` is not (it still admits `cancel`). -/
theorem lifecycle_transition_table :
  ∀ (l : LState) (e : Event),
    (if (applyEvent (encState l) e).2 then some (obsStatus (applyEvent (encState l) e).1)
     else none) = lifecycleTableAmended l e := by
  intro l e
  cases l <;> cases e <;> decide

/-- Counterexample for C3 as stated: `rejected` is claimed terminal, yet the
cancel handler accepts a rejected request and moves it to `cancelled`. -/
theorem rejected_request_cancellable :
  (applyEvent (encState .rejected) .cancel).2 = true ∧
  obsStatus (applyEvent (encState .rejected) .cancel).1 = (some .cancelled, none) := by
  decide

/-! ## Cancellation side effects (C9) -/

lemma find?_cancelFirstAssignmentFor (l : List VehicleAssignment) (rid : Nat) :
    (cancelFirstAssignmentFor l rid).find? (fun x => x.request_id == rid) =
      (l.find? (fun x => x.request_id == rid)).map
        (fun a => { a with status := AssignmentStatus.cancelled }) := by
  induction l with
  | nil => simp [cancelFirstAssignmentFor]
  | cons a rest ih =>
    by_cases hc : (a.request_id == rid) = true
    · simp [cancelFirstAssignmentFor, List.find?_cons, hc]
    · simp [cancelFirstAssignmentFor, List.find?_cons, hc, ih]

lemma find?_setDriverAvailable (l : List Driver) (did : Nat) (b : Bool) :
    (setDriverAvailable l did b).find? (fun x => x.id == did) =
      (l.find? (fun x => x.id == did)).map (fun d => { d with is_available := b }) := by
  induction l with
  | nil => rfl
  | cons d rest ih =>
    have hmap : setDriverAvailable (d :: rest) did b =
        (if (d.id == did) = true then { d with is_available := b } else d) ::
          setDriverAvailable rest did b := rfl
    rw [hmap]
    by_cases hc : (d.id == did) = true
    · rw [if_pos hc]
      have h1 : List.find? (fun x => x.id == did)
          ({ d with is_available := b } :: setDriverAvailable rest did b) =
          some { d with is_available := b } := List.find?_cons_of_pos _ hc
      have h2 : List.find? (fun x => x.id == did) (d :: rest) = some d :=
        List.find?_cons_of_pos _ hc
      rw [h1, h2]
      rfl
    · rw [if_neg hc]
      have h1 : List.find? (fun x => x.id == did) (d :: setDriverAvailable rest did b) =
          List.find? (fun x => x.id == did) (setDriverAvailable rest did b) :=
        List.find?_cons_of_neg _ hc
      have h2 : List.find? (fun x => x.id == did) (d :: rest) =
          List.find? (fun x => x.id == did) rest :=
        List.find?_cons_of_neg _ hc
      rw [h1, h2]
      exact ih

/-- C9 (amended) — cancellation side effects as implemented: both the admin
cancel and the requester's own cancel set the request's assignment (if one
exists) to `cancelled`, but only the **admin** cancel restores the assigned
driver's availability cache to `true`; the requester's own cancel
(`DELETE /requests/{id}`) leaves the drivers table entirely unchanged. -/
theorem cancellation_side_effects :
  ∀ (s : DBState) (rid uid : Nat) (a : VehicleAssignment) (dr : Driver),
    (s.assignments.find? (fun x => x.request_id == rid) = some a →
     s.drivers.find? (fun x => x.id == a.driver_id) = some dr →
     (adminCancelRequest s rid).2.toBool = true →
     ((adminCancelRequest s rid).1.assignments.find? (fun x => x.request_id == rid) =
        some { a with status := AssignmentStatus.cancelled } ∧
      (adminCancelRequest s rid).1.drivers.find? (fun x => x.id == a.driver_id) =
        some { dr with is_available := true })) ∧
    (s.assignments.find? (fun x => x.request_id == rid) = some a →
     (userCancelRequest s uid rid).2.toBool = true →
     ((userCancelRequest s uid rid).1.assignments.find? (fun x => x.request_id == rid) =
        some { a with status := AssignmentStatus.cancelled } ∧
      (userCancelRequest s uid rid).1.drivers = s.drivers)) := by
  intro s rid uid a dr
  constructor
  · intro hA hD hOk
    unfold adminCancelRequest at hOk ⊢
    rcases hf : findRequest s rid with _ | req
    · rw [hf] at hOk
      simp [Except.toBool] at hOk
    · rw [hf] at hOk
      dsimp only at hOk ⊢
      by_cases hg : (req.status == RequestStatus.completed ||
          req.status == RequestStatus.cancelled) = true
      · rw [if_pos hg] at hOk; simp [Except.toBool] at hOk
      · rw [if_neg hg]
        rw [hA]
        dsimp only
        rw [hD]
        dsimp only
        refine ⟨?_, ?_⟩
        · rw [find?_cancelFirstAssignmentFor, hA]; rfl
        · rw [find?_setDriverAvailable, hD]; rfl
  · intro hA hOk
    unfold userCancelRequest at hOk ⊢
    rcases hf : List.find? (fun r => r.id == rid && r.user_id == uid) s.requests with _ | req
    · rw [hf] at hOk
      simp [Except.toBool] at hOk
    · rw [hf] at hOk
      dsimp only at hOk ⊢
      by_cases hg : (req.status == RequestStatus.completed ||
          req.status == RequestStatus.cancelled) = true
      · rw [if_pos hg] at hOk; simp [Except.toBool] at hOk
      · rw [hf]
        dsimp only
        rw [if_neg hg]
        rw [hA]
        dsimp only
        refine ⟨?_, rfl⟩
        rw [find?_cancelFirstAssignmentFor, hA]; rfl

/-- Witness for C9: cancelling the approved request of `s9` through the
admin route cancels its assignment and flips the driver back to available. -/
theorem cancellation_side_effects_witness :
  (adminCancelRequest s9 1).1.assignments.find? (fun x => x.request_id == 1) =
    some { asgS9 with status := AssignmentStatus.cancelled } ∧
  (adminCancelRequest s9 1).1.drivers.find? (fun x => x.id == asgS9.driver_id) =
    some { drS9 with is_available := true } :=
  (cancellation_side_effects s9 1 7 asgS9 drS9).1 (by decide) (by decide) (by decide)

/-- Counterexample for C9 as stated: the requester's own cancellation of the
same state cancels the assignment but does **not** restore the driver's
availability cache — the driver row keeps `is_available = false`. -/
theorem user_cancel_skips_driver_restore :
  (userCancelRequest s9 7 1).2.toBool = true ∧
  (userCancelRequest s9 7 1).1.assignments =
    [{ asgS9 with status := AssignmentStatus.cancelled }] ∧
  (userCancelRequest s9 7 1).1.drivers = [drS9] ∧
  drS9.is_available = false := by
  decide

/-! ## Overlap checking at approval time (C1, C2) -/

/-- C1 (amended) — what the approval path actually guarantees: if
`approve_request_with_assignment` succeeds, then no already-stored assignment
satisfies its conflict filter — i.e. no same-date assignment with status in
{assigned, in_progress} sharing the vehicle or the driver has a closed
interval containing the new departure or the new arrival instant.  This is
strictly weaker than preservation of the no-overlap invariant: an existing
interval strictly inside the candidate interval passes the filter (see the
counterexample), and the bulk-approval path applies no interval check at
all. -/
theorem approve_blocks_endpoint_containment :
  ∀ (s : DBState) (rid : Nat) (d : ApprovalData) (adminId : Nat) (now : Int)
    (req : TransportRequest) (a : VehicleAssignment),
    findRequest s rid = some req →
    a ∈ s.assignments →
    (approveWithAssignment s rid d adminId now).2.toBool = true →
    assignmentConflictsWith s req.request_date d a = false := by
  intro s rid d adminId now req a hreq hmem hOk
  unfold approveWithAssignment at hOk
  rw [hreq] at hOk
  dsimp only at hOk
  by_cases hp : req.status ≠ RequestStatus.pending
  · rw [if_pos hp] at hOk; simp [Except.toBool] at hOk
  · rw [if_neg hp] at hOk
    rcases hv : List.find? (fun v => v.id == d.vehicle_id && v.is_active) s.vehicles with _ | v
    · rw [hv] at hOk; simp [Except.toBool] at hOk
    · rw [hv] at hOk
      dsimp only at hOk
      rcases hd : List.find?
          (fun dr => dr.id == d.driver_id && dr.is_active && dr.is_available) s.drivers
          with _ | dr
      · rw [hd] at hOk; simp [Except.toBool] at hOk
      · rw [hd] at hOk
        dsimp only at hOk
        rcases hc : conflictCheck s req.request_date d with _ | c
        · unfold conflictCheck at hc
          have hnone := List.find?_eq_none.mp hc a hmem
          exact Bool.eq_false_iff.mpr hnone
        · rw [hc] at hOk; simp [Except.toBool] at hOk

/-- Witness for C1: the second approval of the counterexample state succeeds,
so the stored assignment `asg1` does not satisfy the conflict filter against
the containing interval 08:00-16:00. -/
theorem approve_blocks_endpoint_containment_witness :
  assignmentConflictsWith dbC1' reqRow2.request_date apprData2 asg1 = false :=
  approve_blocks_endpoint_containment dbC1' 2 apprData2 9 0 reqRow2 asg1
    (by decide) (by decide) (by decide)

/-- Counterexample for C1 as stated: approving request 1 with vehicle 1 for
09:00-15:00 and then request 2 with the same vehicle for 08:00-16:00 both
succeed (the conflict filter misses strict containment), leaving two
`assigned` assignments on vehicle 1 with overlapping intervals — the
no-overlap invariant is violated. -/
theorem approval_overlap_invariant_violated :
  (approveWithAssignment dbC1 1 apprData1 9 0).2.toBool = true ∧
  (approveWithAssignment dbC1' 2 apprData2 9 0).2.toBool = true ∧
  noOverlapInvariant (approveWithAssignment dbC1' 2 apprData2 9 0).1 = false := by
  decide

/-- C2 (amended) — the interval semantics the code actually uses are closed,
not half-open: the approval conflict filter fires exactly when the new
departure or new arrival lies in the existing assignment's **closed**
interval, so an assignment ending exactly when the candidate begins (or
beginning exactly when the candidate ends) IS flagged as a conflict; and the
scheduler's availability check marks a resource busy throughout the closed
interval from trip start to trip end plus the 15-minute buffer, endpoints
included. -/
theorem closed_interval_conflict_semantics :
  ∀ (exDep exArr newDep newArr t : Int) (trip : SchedTrip) (rest : List SchedTrip)
    (v : VehicleInfo),
    (timeOverlapClosed exDep (some exArr) newDep newArr =
      ((decide (exDep ≤ newDep) && decide (newDep ≤ exArr)) ||
       (decide (exDep ≤ newArr) && decide (newArr ≤ exArr)))) ∧
    (exDep ≤ exArr → exArr = newDep →
      timeOverlapClosed exDep (some exArr) newDep newArr = true) ∧
    (exDep ≤ exArr → exDep = newArr →
      timeOverlapClosed exDep (some exArr) newDep newArr = true) ∧
    (trip.assigned_vehicle_id = some v.id →
      tripStart trip ≤ t → t ≤ tripStart trip + trip.estimated_duration + bufferTimeMinutes →
      isVehicleAvailable (trip :: rest) v t = false) := by
  intro exDep exArr newDep newArr t trip rest v
  refine ⟨rfl, ?_, ?_, ?_⟩
  · intro h1 h2
    subst h2
    simp [timeOverlapClosed, h1]
  · intro h1 h2
    subst h2
    simp [timeOverlapClosed, h1]
  · intro hid h1 h2
    simp [isVehicleAvailable, hid, h1, h2]

/-- Witness for C2 (amended): the literal intervals `[09:00,10:00)` and
`[10:00,11:00)` of the spec's test — `timeOverlapClosed` flags them. -/
theorem closed_interval_conflict_semantics_witness :
  timeOverlapClosed 540 (some 600) 600 660 = true :=
  (closed_interval_conflict_semantics 540 600 600 660 0
      ⟨0, 0, 0, 0, none, none, .pending, 0, none⟩ [] ⟨0, none, none, none, none⟩).2.1
    (by decide) (by decide)

/-- Counterexample for C2 as stated: an assignment ending exactly when the
candidate begins (15:00 = 15:00) has no half-open overlap, yet the approval
conflict filter reports a conflict and the endpoint rejects the approval. -/
theorem touching_intervals_flagged_as_conflict :
  timeOverlapClosed 540 (some 900) 900 960 = true ∧
  halfOpenOverlap 540 900 900 960 = false ∧
  (approveWithAssignment dbC1' 2 ⟨1, 2, 900, 960⟩ 9 0).2 = .error ApiErr.conflict := by
  decide

/-! ## Slot scoring (C8) -/

lemma priority_value_bounds : ∀ p : Priority, 1 ≤ p.value ∧ p.value ≤ 4 := by
  intro p
  cases p <;> exact ⟨by decide, by decide⟩

/-- C8 (amended) — `_calculate_slot_score` equals the spec's additive formula
clamped from above at 100: the raw sum is always at least 40, so the lower
clamp never binds, and the result lies in [0, 100].  The function is a pure
function of the slot time and the request's priority (it reads no other
state), so determinism holds by construction. -/
theorem slot_score_clamped_formula :
  ∀ (t : Int) (req : SchedulingRequest),
    calculateSlotScore t req = min 100 (slotScoreFormula t req) ∧
    40 ≤ slotScoreFormula t req ∧
    0 ≤ calculateSlotScore t req ∧ calculateSlotScore t req ≤ 100 := by
  intro t req
  obtain ⟨hp1, hp2⟩ := priority_value_bounds req.priority
  unfold calculateSlotScore slotScoreFormula
  by_cases h1 : isPeakHour (timeOfDay t) = true <;>
  by_cases h2 : (10 ≤ hourOfDay t && hourOfDay t ≤ 16) = true <;>
  by_cases h3 : 5 ≤ weekdayOf t <;>
  simp [h1, h2, h3] <;> omega

/-- Counterexample for C8 as stated: an urgent request scored at Saturday
noon (slot time 7920 = day 5, 12:00) — not peak, midday band, weekend — has
raw sum 50 + 40 + 15 + 10 = 115, but the returned score is the clamped 100,
so the score does not equal the claimed sum. -/
theorem slot_score_clamp_counterexample :
  calculateSlotScore 7920 reqUrgent = 100 ∧
  slotScoreFormula 7920 reqUrgent = 115 ∧ (100 : Int) ≠ 115 := by
  decide

/-! ## Scheduler availability semantics (C10) -/

lemma isVehicleAvailable_iff (trips : List SchedTrip) (v : VehicleInfo) (t : Int) :
    isVehicleAvailable trips v t = true ↔
      (v.status = some "available" ∧ ∀ trip ∈ trips, trip.assigned_vehicle_id = some v.id →
        ¬(tripStart trip ≤ t ∧
          t ≤ tripStart trip + trip.estimated_duration + bufferTimeMinutes)) := by
  induction trips with
  | nil => simp [isVehicleAvailable]
  | cons trip rest ih =>
    simp only [isVehicleAvailable, List.forall_mem_cons]
    by_cases h1 : (trip.assigned_vehicle_id == some v.id) = true
    · have hid : trip.assigned_vehicle_id = some v.id := by simpa using h1
      rw [if_pos h1]
      by_cases h2 : (decide (tripStart trip ≤ t) &&
          decide (t ≤ tripStart trip + trip.estimated_duration + bufferTimeMinutes)) = true
      · rw [if_pos h2]
        simp only [Bool.and_eq_true, decide_eq_true_eq] at h2
        constructor
        · intro hF
          exact absurd hF (by simp)
        · rintro ⟨-, hTrip, -⟩
          exact absurd h2 (hTrip hid)
      · rw [if_neg h2]
        rw [ih]
        simp only [Bool.and_eq_true, decide_eq_true_eq] at h2
        constructor
        · rintro ⟨hs, hrest⟩
          exact ⟨hs, fun _ hcon => h2 ⟨hcon.1, hcon.2⟩, hrest⟩
        · rintro ⟨hs, -, hrest⟩
          exact ⟨hs, hrest⟩
    · have hid : ¬ trip.assigned_vehicle_id = some v.id := by simpa using h1
      rw [if_neg h1, ih]
      constructor
      · rintro ⟨hs, hrest⟩
        exact ⟨hs, fun h => absurd h hid, hrest⟩
      · rintro ⟨hs, -, hrest⟩
        exact ⟨hs, hrest⟩

lemma isDriverAvailable_iff (trips : List SchedTrip) (d : DriverInfo) (t : Int) :
    isDriverAvailable trips d t = true ↔
      (d.status = some "available" ∧ ∀ trip ∈ trips, trip.assigned_driver_id = some d.id →
        ¬(tripStart trip ≤ t ∧
          t ≤ tripStart trip + trip.estimated_duration + bufferTimeMinutes)) := by
  induction trips with
  | nil => simp [isDriverAvailable]
  | cons trip rest ih =>
    simp only [isDriverAvailable, List.forall_mem_cons]
    by_cases h1 : (trip.assigned_driver_id == some d.id) = true
    · have hid : trip.assigned_driver_id = some d.id := by simpa using h1
      rw [if_pos h1]
      by_cases h2 : (decide (tripStart trip ≤ t) &&
          decide (t ≤ tripStart trip + trip.estimated_duration + bufferTimeMinutes)) = true
      · rw [if_pos h2]
        simp only [Bool.and_eq_true, decide_eq_true_eq] at h2
        constructor
        · intro hF
          exact absurd hF (by simp)
        · rintro ⟨-, hTrip, -⟩
          exact absurd h2 (hTrip hid)
      · rw [if_neg h2]
        rw [ih]
        simp only [Bool.and_eq_true, decide_eq_true_eq] at h2
        constructor
        · rintro ⟨hs, hrest⟩
          exact ⟨hs, fun _ hcon => h2 ⟨hcon.1, hcon.2⟩, hrest⟩
        · rintro ⟨hs, -, hrest⟩
          exact ⟨hs, hrest⟩
    · have hid : ¬ trip.assigned_driver_id = some d.id := by simpa using h1
      rw [if_neg h1, ih]
      constructor
      · rintro ⟨hs, hrest⟩
        exact ⟨hs, fun h => absurd h hid, hrest⟩
      · rintro ⟨hs, -, hrest⟩
        exact ⟨hs, hrest⟩

/-- C10 — the scheduler's availability predicates: a vehicle (resp. driver)
is available at a slot's start instant `t` iff its `status` field is the
string `available` and no scheduled trip assigned to it has `t` inside the
closed interval from the trip's start to its end plus the 15-minute buffer
(`buffer_time_minutes`).  The check reads only the slot's start instant —
the predicate takes no candidate duration at all — and a resource whose
status is not `available` is unavailable at every slot. -/
theorem availability_buffer_semantics :
  ∀ (trips : List SchedTrip) (v : VehicleInfo) (d : DriverInfo) (t : Int),
    (isVehicleAvailable trips v t = true ↔
      (v.status = some "available" ∧ ∀ trip ∈ trips, trip.assigned_vehicle_id = some v.id →
        ¬(tripStart trip ≤ t ∧
          t ≤ tripStart trip + trip.estimated_duration + bufferTimeMinutes))) ∧
    (isDriverAvailable trips d t = true ↔
      (d.status = some "available" ∧ ∀ trip ∈ trips, trip.assigned_driver_id = some d.id →
        ¬(tripStart trip ≤ t ∧
          t ≤ tripStart trip + trip.estimated_duration + bufferTimeMinutes))) ∧
    (v.status ≠ some "available" → isVehicleAvailable trips v t = false) ∧
    (d.status ≠ some "available" → isDriverAvailable trips d t = false) := by
  intro trips v d t
  refine ⟨isVehicleAvailable_iff trips v t, isDriverAvailable_iff trips d t, ?_, ?_⟩
  · intro hst
    cases hres : isVehicleAvailable trips v t
    · rfl
    · exact absurd ((isVehicleAvailable_iff trips v t).mp hres).1 hst
  · intro hst
    cases hres : isDriverAvailable trips d t
    · rfl
    · exact absurd ((isDriverAvailable_iff trips d t).mp hres).1 hst

/-- Witness for C10: a vehicle in `maintenance` status is unavailable, and a
busy vehicle is unavailable at the trip-end-plus-buffer instant but available
one minute later. -/
theorem availability_buffer_semantics_witness :
  isVehicleAvailable [] ⟨3, some "maintenance", none, none, none⟩ 0 = false ∧
  isVehicleAvailable [⟨1, 0, 540, 60, some 4, none, .scheduled, 0, none⟩]
    ⟨4, some "available", none, none, none⟩ 615 = false ∧
  isVehicleAvailable [⟨1, 0, 540, 60, some 4, none, .scheduled, 0, none⟩]
    ⟨4, some "available", none, none, none⟩ 616 = true :=
  ⟨(availability_buffer_semantics [] ⟨3, some "maintenance", none, none, none⟩
      ⟨0, none, none, none⟩ 0).2.2.1 (by decide),
   by decide, by decide⟩

/-! ## Slot ordering (C7) -/

lemma calculateSlotScore_le_100 (t : Int) (req : SchedulingRequest) :
    calculateSlotScore t req ≤ 100 := by
  unfold calculateSlotScore
  exact min_le_left _ _

lemma insertSlotDesc_of_max (s : TimeSlot) (l : List TimeSlot)
    (h : ∀ x ∈ l, x.score ≤ s.score) : insertSlotDesc s l = s :: l := by
  cases l with
  | nil => rfl
  | cons t ts =>
    unfold insertSlotDesc
    rw [if_pos (h t (List.mem_cons_self t ts))]

lemma mem_insertSlotDesc (x s : TimeSlot) (l : List TimeSlot)
    (hm : x ∈ insertSlotDesc s l) : x = s ∨ x ∈ l := by
  induction l with
  | nil =>
    simp only [insertSlotDesc] at hm
    exact Or.inl (List.mem_singleton.mp hm)
  | cons t ts ih =>
    unfold insertSlotDesc at hm
    by_cases hc : t.score ≤ s.score
    · rw [if_pos hc] at hm
      simpa [List.mem_cons] using hm
    · rw [if_neg hc] at hm
      rcases List.mem_cons.mp hm with h | h
      · exact Or.inr (h ▸ List.mem_cons_self t ts)
      · rcases ih h with h' | h'
        · exact Or.inl h'
        · exact Or.inr (List.mem_cons_of_mem t h')

lemma mem_sortSlotsByScoreDesc (x : TimeSlot) (l : List TimeSlot)
    (hm : x ∈ sortSlotsByScoreDesc l) : x ∈ l := by
  induction l with
  | nil =>
    simp only [sortSlotsByScoreDesc] at hm
    exact absurd hm (List.not_mem_nil x)
  | cons s ss ih =>
    rcases mem_insertSlotDesc x s _ hm with h | h
    · exact h ▸ List.mem_cons_self s ss
    · exact List.mem_cons_of_mem s (ih h)

lemma head?_sortSlotsDesc (s : TimeSlot) (l : List TimeSlot)
    (h : ∀ x ∈ l, x.score ≤ s.score) :
    (sortSlotsByScoreDesc (s :: l)).head? = some s := by
  show (insertSlotDesc s (sortSlotsByScoreDesc l)).head? = some s
  rw [insertSlotDesc_of_max s _ (fun x hx => h x (mem_sortSlotsByScoreDesc x l hx))]
  rfl

/-- C7 — the slot sequence produced by `_find_optimal_time_slots` always has
the exact requested time, tagged `requested` with score 100, as its first
element: every alternative's score is clamped to at most 100, and the sort
(Python's `sorted`, a stable sort) never moves a later slot in front of an
earlier one of equal score — so the requested slot stays first even when an
alternative ties at 100. -/
theorem requested_slot_ranked_first :
  ∀ req : SchedulingRequest,
    (findOptimalTimeSlots req).head? =
      some ⟨combineDT req.requested_date req.requested_time, 100, .requested,
            [.user_preference]⟩ := by
  intro req
  unfold findOptimalTimeSlots
  dsimp only
  apply head?_sortSlotsDesc
  intro x hx
  rcases List.mem_filterMap.mp hx with ⟨o, -, hfx⟩
  by_cases h1 : |o| ≤ req.flexibility_minutes
  · rw [if_pos h1] at hfx
    by_cases h2 : isWithinWorkingHours
        (timeOfDay (combineDT req.requested_date req.requested_time + o)) = true
    · rw [if_pos h2] at hfx
      cases hfx
      exact calculateSlotScore_le_100 _ _
    · rw [if_neg h2] at hfx
      cases hfx
  · rw [if_neg h1] at hfx
    cases hfx

/-! ## The two-pass structure of `schedule_request` (C5, C6) -/

/-- One full search pass of `schedule_request`: slot enumeration, resource
availability, scheduling algorithm. -/
def firstPass (trips : List SchedTrip) (req : SchedulingRequest)
    (vehicles : List VehicleInfo) (drivers : List DriverInfo) (randBase : Int) : SchedTrip :=
  applySchedulingAlgorithm req randBase (findOptimalTimeSlots req)
    (checkResourceAvailability trips (findOptimalTimeSlots req) vehicles drivers)

/-- The widened request used by the single conflict-resolution retry. -/
def widenedRequest (req : SchedulingRequest) : SchedulingRequest :=
  { req with flexibility_minutes := req.flexibility_minutes + 60 }

/-- `schedule_request` is exactly two passes: the first pass, and — only when
it conflicts — one retry over the request widened by 60 minutes. -/
lemma scheduleRequest_two_pass (trips : List SchedTrip) (req : SchedulingRequest)
    (vehicles : List VehicleInfo) (drivers : List DriverInfo) (r1 r2 : Int) :
    (scheduleRequest trips req vehicles drivers r1 r2).1.scheduled_trip =
      (if (firstPass trips req vehicles drivers r1).status ≠ .conflict then
         firstPass trips req vehicles drivers r1
       else if (firstPass trips (widenedRequest req) vehicles drivers r2).status = .scheduled
       then { firstPass trips (widenedRequest req) vehicles drivers r2 with
              status := SchedulingStatus.optimized }
       else firstPass trips req vehicles drivers r1) := by
  unfold scheduleRequest resolveSchedulingConflicts firstPass widenedRequest
  dsimp only
  by_cases h1 : (applySchedulingAlgorithm req r1 (findOptimalTimeSlots req)
      (checkResourceAvailability trips (findOptimalTimeSlots req) vehicles drivers)).status =
      SchedulingStatus.conflict
  · rw [if_pos h1, if_neg (not_not_intro h1)]
  · rw [if_neg h1, if_pos h1]

/-- C5 — widening retry policy: `schedule_request` widens
`flexibility_minutes` by exactly 60 exactly once; the result is the first
pass when it succeeds, otherwise the single widened retry (retagged
`optimized`) when that succeeds; when the retry also fails the original
conflicted trip — the code's infeasibility marker, `status = CONFLICT` with
confidence 0 — is returned and no further retry happens: every run is at
most two search passes, and (the functions being total) terminates on every
input, including empty candidate pools. -/
theorem widening_retry_policy :
  ∀ (trips : List SchedTrip) (req : SchedulingRequest) (vehicles : List VehicleInfo)
    (drivers : List DriverInfo) (r1 r2 : Int),
    ((widenedRequest req).flexibility_minutes = req.flexibility_minutes + 60) ∧
    ((scheduleRequest trips req vehicles drivers r1 r2).1.scheduled_trip =
      (if (firstPass trips req vehicles drivers r1).status ≠ .conflict then
         firstPass trips req vehicles drivers r1
       else if (firstPass trips (widenedRequest req) vehicles drivers r2).status = .scheduled
       then { firstPass trips (widenedRequest req) vehicles drivers r2 with
              status := SchedulingStatus.optimized }
       else firstPass trips req vehicles drivers r1)) ∧
    ((firstPass trips req vehicles drivers r1).status = .conflict →
     (firstPass trips (widenedRequest req) vehicles drivers r2).status ≠ .scheduled →
     (scheduleRequest trips req vehicles drivers r1 r2).1.scheduled_trip =
        firstPass trips req vehicles drivers r1 ∧
     (scheduleRequest trips req vehicles drivers r1 r2).1.scheduled_trip.status = .conflict) ∧
    (scheduleRequest trips req vehicles drivers r1 r2).1.success = true := by
  intro trips req vehicles drivers r1 r2
  refine ⟨rfl, scheduleRequest_two_pass trips req vehicles drivers r1 r2, ?_, rfl⟩
  intro hc hns
  have hmain := scheduleRequest_two_pass trips req vehicles drivers r1 r2
  rw [hmain, if_neg (not_not_intro hc), if_neg hns]
  exact ⟨rfl, hc⟩

/-- Witness for C5: with empty candidate pools both passes conflict and the
returned trip is the first pass's conflicted trip. -/
theorem widening_retry_policy_witness :
  (scheduleRequest [] req0 [] [] 30 30).1.scheduled_trip =
    firstPass [] req0 [] [] 30 ∧
  (scheduleRequest [] req0 [] [] 30 30).1.scheduled_trip.status = .conflict :=
  (widening_retry_policy [] req0 [] [] 30 30).2.2.1 (by decide) (by decide)

/-! ## Empty candidate pools (C6) -/

lemma lookup_checkRA_vehicles_nil (trips : List SchedTrip) (slots : List TimeSlot)
    (drivers : List DriverInfo) (t : Int) (av : Avail)
    (h : (checkResourceAvailability trips slots [] drivers).lookup t = some av) :
    av.vehicles = [] := by
  induction slots with
  | nil => cases h
  | cons slot rest ih =>
    simp only [checkResourceAvailability, List.map_cons, List.lookup, List.filter_nil] at h
    by_cases hk : (t == slot.slot_time) = true
    · rw [hk] at h
      cases h
      rfl
    · rw [Bool.not_eq_true] at hk
      rw [hk] at h
      exact ih (by simpa [checkResourceAvailability] using h)

lemma lookup_checkRA_drivers_nil (trips : List SchedTrip) (slots : List TimeSlot)
    (vehicles : List VehicleInfo) (t : Int) (av : Avail)
    (h : (checkResourceAvailability trips slots vehicles []).lookup t = some av) :
    av.drivers = [] := by
  induction slots with
  | nil => cases h
  | cons slot rest ih =>
    simp only [checkResourceAvailability, List.map_cons, List.lookup, List.filter_nil] at h
    by_cases hk : (t == slot.slot_time) = true
    · rw [hk] at h
      cases h
      rfl
    · rw [Bool.not_eq_true] at hk
      rw [hk] at h
      exact ih (by simpa [checkResourceAvailability] using h)

lemma foldl_schedStep_const (req : SchedulingRequest) (ra : List (Int × Avail))
    (h : ∀ t av, ra.lookup t = some av → av.vehicles = [] ∨ av.drivers = []) :
    ∀ (slots : List TimeSlot) (acc : Option (TimeSlot × Avail) × Rat),
      slots.foldl (schedStep req ra) acc = acc := by
  intro slots
  induction slots with
  | nil => intro acc; rfl
  | cons slot rest ih =>
    intro acc
    rw [List.foldl_cons]
    have hstep : schedStep req ra acc slot = acc := by
      unfold schedStep
      rcases hl : ra.lookup slot.slot_time with _ | av
      · rfl
      · dsimp only
        rcases h _ _ hl with hv | hd
        · rw [if_neg]
          simp [hv]
        · rw [if_neg]
          simp [hd]
    rw [hstep, ih]

lemma applySched_conflict_of_no_resources (req : SchedulingRequest) (randBase : Int)
    (slots : List TimeSlot) (ra : List (Int × Avail))
    (h : ∀ t av, ra.lookup t = some av → av.vehicles = [] ∨ av.drivers = []) :
    applySchedulingAlgorithm req randBase slots ra = conflictTrip req randBase := by
  unfold applySchedulingAlgorithm
  rw [foldl_schedStep_const req ra h slots (none, 0)]

/-- C6 (amended) — there is no empty-pool fast path: with an empty candidate
vehicle pool (or an empty candidate driver pool) `schedule_request` still
enumerates and scores the full slot list, runs both search passes (the
second over the widened window), and then returns a normal success payload
whose trip has status `CONFLICT` — not an error raised before the search. -/
theorem empty_pool_no_fast_fail :
  ∀ (trips : List SchedTrip) (req : SchedulingRequest) (vehicles : List VehicleInfo)
    (drivers : List DriverInfo) (r1 r2 : Int),
    ((scheduleRequest trips req [] drivers r1 r2).1.scheduled_trip =
        conflictTrip req r1 ∧
     (scheduleRequest trips req [] drivers r1 r2).1.success = true) ∧
    ((scheduleRequest trips req vehicles [] r1 r2).1.scheduled_trip =
        conflictTrip req r1 ∧
     (scheduleRequest trips req vehicles [] r1 r2).1.success = true) := by
  intro trips req vehicles drivers r1 r2
  constructor
  · constructor
    · rw [scheduleRequest_two_pass]
      have h1 : firstPass trips req [] drivers r1 = conflictTrip req r1 := by
        unfold firstPass
        exact applySched_conflict_of_no_resources _ _ _ _
          (fun t av hl => Or.inl (lookup_checkRA_vehicles_nil trips _ drivers t av hl))
      have h2 : firstPass trips (widenedRequest req) [] drivers r2 =
          conflictTrip (widenedRequest req) r2 := by
        unfold firstPass
        exact applySched_conflict_of_no_resources _ _ _ _
          (fun t av hl => Or.inl (lookup_checkRA_vehicles_nil trips _ drivers t av hl))
      rw [h1, h2]
      simp [conflictTrip]
    · rfl
  · constructor
    · rw [scheduleRequest_two_pass]
      have h1 : firstPass trips req vehicles [] r1 = conflictTrip req r1 := by
        unfold firstPass
        exact applySched_conflict_of_no_resources _ _ _ _
          (fun t av hl => Or.inr (lookup_checkRA_drivers_nil trips _ vehicles t av hl))
      have h2 : firstPass trips (widenedRequest req) vehicles [] r2 =
          conflictTrip (widenedRequest req) r2 := by
        unfold firstPass
        exact applySched_conflict_of_no_resources _ _ _ _
          (fun t av hl => Or.inr (lookup_checkRA_drivers_nil trips _ vehicles t av hl))
      rw [h1, h2]
      simp [conflictTrip]
    · rfl

/-- Counterexample for C6 as stated: with empty pools, `schedule_request` on
`req0` returns a **successful** payload carrying a CONFLICT trip — no
`InfeasibleError`-like failure exists — and the slot pipeline has enumerated
and scored 5 slots (7 on the widened retry) rather than returning before any
slot enumeration. -/
theorem empty_pool_counterexample :
  (scheduleRequest [] req0 [] [] 30 30).1 =
    ⟨true, ⟨1, 0, 540, 30, none, none, .conflict, 0, none⟩⟩ ∧
  (findOptimalTimeSlots req0).length = 5 ∧
  (findOptimalTimeSlots (widenedRequest req0)).length = 7 := by
  decide

/-- Counterexample for C5 as stated: when even the widened retry is
infeasible, `schedule_request` does not return an `InfeasibleError` — no
error channel exists in this code path at all; it returns a `success = true`
payload whose trip merely has status `CONFLICT` and carries no conflict
report. -/
theorem infeasible_returns_conflict_marker_not_error :
  (scheduleRequest [] reqUrgent [] [] 20 20).1.success = true ∧
  (scheduleRequest [] reqUrgent [] [] 20 20).1.scheduled_trip.status = .conflict := by
  decide
